import Mathlib

/-!
Verification of the closed-loop learning pipeline of
`Learning_AnaliticData.py` (Machine_Plegadora): a shallow embedding of the
data-manager, validators, model trainer/predictor and the Streamlit session
handlers, together with theorems settling the specification claims.

Numeric cell values are modelled as rationals (Python ints and floats both
embed); the remote GitHub object store is modelled as an explicit state
(reachability flag, current object with its version token, and a supply of
fresh tokens); Streamlit UI output and HTTP traffic are modelled as an
explicit effect list.
-/

namespace Plegadora

/-- A pandas DataFrame: the column names and the rows (each row a list of
cell values aligned with the columns). -/
structure DataFrame where
  cols : List String
  rows : List (List ℚ)
deriving DecidableEq

/-- `df.empty` in pandas: true when either axis has length zero. -/
def dfEmpty (df : DataFrame) : Bool :=
  df.rows.isEmpty || df.cols.isEmpty

/-- The value `pd.DataFrame()` returned on every failure path of
`obtener_datos_github`. -/
def emptyDF : DataFrame := ⟨[], []⟩

/-- The six required dataset columns of `Validator.validar_dataframe`
(`columnas_necesarias`). -/
def requiredCols : List String := ["angulo", "v", "s", "l", "acero", "y"]

/-- Observable effects of one operation: HTTP traffic against the remote
store and Streamlit UI messages. -/
inductive Effect where
  | httpGet
  | httpPut
  | uiError (msg : String)
  | uiWarning (msg : String)
  | uiSuccess (msg : String)
deriving DecidableEq

/-- The remote `data_base.xlsx` object: either absent (no backing object) or
present with its version token (the GitHub content SHA) and decoded data. -/
inductive RemoteObject where
  | absent
  | present (sha : Nat) (df : DataFrame)
deriving DecidableEq

/-- State of the remote store: whether it is reachable, the current object,
and a counter supplying fresh version tokens for new writes. -/
structure RemoteState where
  reachable : Bool
  obj : RemoteObject
  fresh : Nat
deriving DecidableEq

/-- Number of dataset rows currently stored remotely. -/
def remoteRows (r : RemoteState) : Nat :=
  match r.obj with
  | .absent => 0
  | .present _ df => df.rows.length

/-- `DataManager.obtener_datos_github`: reads the raw blob with a plain GET.
An unreachable remote raises and is reported as a connection error; an
absent object makes `pd.read_excel` raise and is reported as a processing
error; a present but empty object is reported with a warning and a fresh
`pd.DataFrame()` is returned.  Every failure path returns the empty
DataFrame (the interpolated `str(e)` suffix of the messages is omitted). -/
def obtener_datos_github (r : RemoteState) : DataFrame × List Effect :=
  if r.reachable = false then
    (emptyDF, [.httpGet, .uiError "❌ Error de conexión con GitHub"])
  else
    match r.obj with
    | .absent => (emptyDF, [.httpGet, .uiError "❌ Error al procesar el archivo"])
    | .present _ df =>
      if dfEmpty df then (emptyDF, [.httpGet, .uiWarning "⚠️ El archivo descargado está vacío"])
      else (df, [.httpGet])

/-- Result of `DataManager.subir_datos_github`: the returned Bool, the
remote state after the call, and the effects it produced. -/
structure UploadResult where
  ok : Bool
  remote : RemoteState
  effects : List Effect
deriving DecidableEq

/-- `DataManager.subir_datos_github`: refuses an empty DataFrame, then a
missing `GITHUB_TOKEN`, issuing no request in either case.  Otherwise it
GETs the current content SHA of the object (fresh, inside this call — the
function takes no version token from its caller), then PUTs the new content
conditioned on exactly that freshly fetched SHA (or unconditioned when the
object is absent), so a reachable remote always accepts the write and the
object is replaced under a fresh token.  An unreachable remote makes the
GET raise; the exception handler reports the failure and returns False. -/
def subir_datos_github (tokenPresent : Bool) (df : DataFrame) (r : RemoteState) : UploadResult :=
  if dfEmpty df then
    ⟨false, r, [.uiError "❌ No se puede subir un DataFrame vacío"]⟩
  else if tokenPresent = false then
    ⟨false, r, [.uiError "❌ Token de GitHub no configurado"]⟩
  else if r.reachable = false then
    ⟨false, r, [.httpGet, .uiError "❌ Error durante la actualización"]⟩
  else
    ⟨true, ⟨true, .present r.fresh df, r.fresh + 1⟩,
     [.httpGet, .httpPut, .uiSuccess "✅ Datos actualizados correctamente en GitHub"]⟩

/-- `MaterialConstants.RELACION_H_V`: minimum flange length per die
opening V. -/
def RELACION_H_V : List (ℚ × ℚ) :=
  [(6, 5), (8, 6), (12, 9), (15, 12), (20, 15), (26, 18), (37, 25), (50, 36)]

/-- Dictionary lookup `RELACION_H_V[v]` (`None` models a `KeyError`). -/
def lookupHV (v : ℚ) : Option ℚ :=
  (RELACION_H_V.find? (fun p => p.1 = v)).map (fun p => p.2)

/-- `Validator.validar_parametros`: range checks on the input parameters,
in source order; the final check compares the length against the minimum
H for the selected die opening using strict `<` (equality passes). -/
def validar_parametros (angulo longitud espesor v : ℚ) : Bool × String :=
  if angulo ≤ 0 ∨ angulo > 180 then
    (false, "⚠️ El ángulo debe estar entre 1° y 180°")
  else if longitud ≤ 0 then
    (false, "⚠️ La longitud debe ser mayor a 0 mm")
  else if espesor ≤ 0 then
    (false, "⚠️ El espesor debe ser mayor a 0 mm")
  else
    match lookupHV v with
    | none => (false, "⚠️ Valor V no válido")
    | some h_min =>
      if longitud < h_min then
        (false, "⚠️ La longitud mínima para V=" ++ toString v ++ "mm es " ++ toString h_min ++ "mm")
      else (true, "")

/-- The required columns missing from a DataFrame (Python's
`columnas_necesarias - set(df.columns)`, determinized to the declaration
order of the required-column list). -/
def missingCols (df : DataFrame) : List String :=
  requiredCols.filter (fun c => !(df.cols.contains c))

/-- `Validator.validar_dataframe`: the emptiness check runs first, so an
empty DataFrame is reported as empty even when required columns are also
missing; only a nonempty DataFrame gets the message naming the missing
columns. -/
def validar_dataframe (df : DataFrame) : Bool × String :=
  if dfEmpty df then (false, "El DataFrame está vacío")
  else if requiredCols.all (fun c => df.cols.contains c) then (true, "")
  else (false, "Faltan columnas: " ++ String.intercalate ", " (missingCols df))

/-- `Config`: the model hyperparameters (test fraction 0.2 is modelled as
the exact rational 1/5). -/
def MODEL_ESTIMATORS : Nat := 1000

/-- `Config.MODEL_TEST_SIZE` = 0.2. -/
def MODEL_TEST_SIZE : ℚ := 1 / 5

/-- `Config.MODEL_RANDOM_STATE` = 42, the fixed random seed passed to both
`train_test_split` and `RandomForestRegressor`. -/
def MODEL_RANDOM_STATE : Nat := 42

/-- One prediction query / feature row, in the column order of
`X = data[["angulo", "v", "s", "l", "acero"]]`. -/
structure Query where
  angulo : ℚ
  v : ℚ
  s : ℚ
  l : ℚ
  acero : ℚ
deriving DecidableEq

/-- Insert into a sorted duplicate-free list, keeping it sorted and
duplicate-free. -/
def insertSortedDedup (x : ℚ) : List ℚ → List ℚ
  | [] => [x]
  | y :: ys =>
    if x < y then x :: y :: ys
    else if x = y then y :: ys
    else y :: insertSortedDedup x ys

/-- The category vocabulary a fitted `OneHotEncoder` stores: the sorted
distinct values of the fitted column. -/
def sortDedup (l : List ℚ) : List ℚ := l.foldr insertSortedDedup []

/-- One-hot indicator row of a fitted `OneHotEncoder(handle_unknown="ignore")`:
one indicator per known category; a value outside the vocabulary yields no
error but the all-zero row. -/
def oneHotRow (cats : List ℚ) (x : ℚ) : List ℚ :=
  cats.map (fun c => if c = x then 1 else 0)

/-- The `ColumnTransformer` of `entrenar`: one-hot encode `acero`, pass the
remaining columns through unchanged (transformed block first, then the
passthrough columns in their original order `angulo, v, s, l`). -/
def encodeRow (cats : List ℚ) (q : Query) : List ℚ :=
  oneHotRow cats q.acero ++ [q.angulo, q.v, q.s, q.l]

/-- Linear congruential step driving the modelled shuffle. -/
def lcg (s : Nat) : Nat := (s * 1103515245 + 12345) % 2 ^ 31

/-- Remove and return the element at index `i`. -/
def extractAt {α : Type} (i : Nat) : List α → Option (α × List α)
  | [] => none
  | x :: xs =>
    match i with
    | 0 => some (x, xs)
    | j + 1 =>
      match extractAt j xs with
      | none => none
      | some (y, ys) => some (y, x :: ys)

/-- Seed-driven Fisher–Yates shuffle (fuelled by the list length). -/
def shuffleAux {α : Type} (s : Nat) : Nat → List α → List α
  | 0, l => l
  | fuel + 1, l =>
    match extractAt (s % l.length) l with
    | none => l
    | some (x, rest) => x :: shuffleAux (lcg s) fuel rest

/-- Deterministic permutation of a list from a seed. -/
def shuffleSeeded {α : Type} (seed : Nat) (l : List α) : List α :=
  shuffleAux seed l.length l

/-- Number of held-out rows for `n` samples: `ceil(n * test_size)`
(sklearn's rule for a fractional `test_size`). -/
def nTest (n : Nat) : Nat := Nat.ceil ((n : ℚ) * MODEL_TEST_SIZE)

/-- Model of sklearn's `train_test_split`: the row permutation is a pure
function of the seed; `random_state=None` would draw the seed from ambient
entropy, a fixed `random_state` ignores the entropy.  Returns
(training partition, held-out partition). -/
def train_test_split {α : Type} (randomState : Option Nat) (entropy : Nat)
    (l : List α) : List α × List α :=
  let seed := randomState.getD entropy
  let p := shuffleSeeded seed l
  (p.drop (nTest l.length), p.take (nTest l.length))

/-- Ensemble prediction of a fitted `RandomForestRegressor`: the mean of
the individual tree predictions. -/
def forestPredict (trees : List (List ℚ → ℚ)) (x : List ℚ) : ℚ :=
  (trees.map (fun t => t x)).sum / (trees.length : ℚ)

/-- Python's banker's rounding (`round` ties to even). -/
def roundHalfEven (x : ℚ) : ℤ :=
  let f := ⌊x⌋
  let r := x - f
  if r < 1 / 2 then f
  else if r > 1 / 2 then f + 1
  else if f % 2 = 0 then f else f + 1

/-- Python's `round(x, 2)`. -/
def round2 (x : ℚ) : ℚ := (roundHalfEven (100 * x) : ℚ) / 100

/-- Mean absolute error over (truth, prediction) pairs. -/
def maeOf (l : List (ℚ × ℚ)) : ℚ :=
  (l.map (fun p => |p.1 - p.2|)).sum / (l.length : ℚ)

/-- Coefficient of determination over (truth, prediction) pairs. -/
def r2Of (l : List (ℚ × ℚ)) : ℚ :=
  let ybar := (l.map (fun p => p.1)).sum / (l.length : ℚ)
  1 - (l.map (fun p => (p.1 - p.2) ^ 2)).sum / (l.map (fun p => (p.1 - ybar) ^ 2)).sum

/-- The fitted pipeline: the encoder's category vocabulary (fixed at fit
time) plus the fitted forest. -/
structure FittedModel where
  cats : List ℚ
  trees : List (List ℚ → ℚ)

/-- `ModeloPredictor`'s mutable attributes (`pipeline`, `mae`, `r2`),
all `None` after `__init__`. -/
structure ModeloPredictor where
  pipeline : Option FittedModel
  mae : Option ℚ
  r2 : Option ℚ

/-- Index of a column label in the column list (`None` models the
`KeyError` pandas raises on a missing column). -/
def colIdx (cols : List String) (c : String) : Option Nat :=
  match cols with
  | [] => none
  | x :: xs => if x = c then some 0 else (colIdx xs c).map (fun i => i + 1)

/-- Look up the six required column indices; the column selections
`data[["angulo", "v", "s", "l", "acero"]]` and `data["y"]` raise as soon
as any of them is missing. -/
def featureIdxs (df : DataFrame) : Option (Nat × Nat × Nat × Nat × Nat × Nat) :=
  (colIdx df.cols "angulo").bind fun ia =>
  (colIdx df.cols "v").bind fun iv =>
  (colIdx df.cols "s").bind fun i3 =>
  (colIdx df.cols "l").bind fun il =>
  (colIdx df.cols "acero").bind fun iac =>
  (colIdx df.cols "y").map fun iy => (ia, iv, i3, il, iac, iy)

/-- `ModeloPredictor.entrenar`, with the sklearn tree-growing algorithm
abstracted as `ff` (given the forest size, the random seed and the encoded
training rows it returns the fitted trees).  `none` models the caught
exception / `return False` paths: a missing required column, or a split
whose training partition is empty (sklearn raises on it before `fit`).
On success returns the fitted pipeline and the MAE and R² computed on the
held-out partition, encoded through the same fitted vocabulary. -/
def entrenarCore (ff : Nat → Nat → List (List ℚ × ℚ) → List (List ℚ → ℚ))
    (df : DataFrame) (entropy : Nat) : Option (FittedModel × ℚ × ℚ) :=
  match featureIdxs df with
  | none => none
  | some (ia, iv, i3, il, iac, iy) =>
    let xy : List (Query × ℚ) := df.rows.map (fun row =>
      (Query.mk (row.getD ia 0) (row.getD iv 0) (row.getD i3 0) (row.getD il 0)
        (row.getD iac 0), row.getD iy 0))
    let split := train_test_split (some MODEL_RANDOM_STATE) entropy xy
    if split.1.isEmpty then none
    else
      let cats := sortDedup (split.1.map (fun q => q.1.acero))
      let trees := ff MODEL_ESTIMATORS MODEL_RANDOM_STATE
        (split.1.map (fun q => (encodeRow cats q.1, q.2)))
      let testPred := split.2.map (fun q => (q.2, forestPredict trees (encodeRow cats q.1)))
      some (⟨cats, trees⟩, maeOf testPred, r2Of testPred)

/-- The `entrenar` method: on success the object's `pipeline`, `mae` and
`r2` are set and `True` is returned; on the modelled failure paths the
exception is caught before any attribute assignment, `False` is returned
and the object is unchanged. -/
def entrenarM (m : ModeloPredictor) (ff : Nat → Nat → List (List ℚ × ℚ) → List (List ℚ → ℚ))
    (df : DataFrame) (entropy : Nat) : ModeloPredictor × Bool :=
  match entrenarCore ff df entropy with
  | none => (m, false)
  | some (fm, mae, r2) => (⟨some fm, some mae, some r2⟩, true)

/-- `ModeloPredictor.predecir`: `None` (after the "modelo no ha sido
entrenado" error) when `pipeline is None`; otherwise the query row is
encoded through the pipeline's already-fitted vocabulary and the rounded
ensemble mean is returned. -/
def predecir (m : ModeloPredictor) (angulo v espesor longitud acero : ℚ) : Option ℚ :=
  match m.pipeline with
  | none => none
  | some fm =>
    some (round2 (forestPredict fm.trees
      (encodeRow fm.cats (Query.mk angulo v espesor longitud acero))))

/-- The query parameters saved in `st.session_state.parametros` at
prediction time: `(angulo, v, espesor, longitud, cdg_data)`. -/
structure Params where
  angulo : ℚ
  v : ℚ
  espesor : ℚ
  longitud : ℚ
  acero : ℚ
deriving DecidableEq

/-- The Streamlit session variables set by `inicializar_sesion` and the
handlers. -/
structure SessionState where
  mostrar_botones : Bool
  accion : Option String
  pred_y : Option ℚ
  parametros : Option Params

/-- The "✅ Confirmar resultado correcto" button handler: it records the
action, reports that no database change was made, and hides the buttons.
It performs no data-manager call, so the remote state passes through
unchanged. -/
def confirmarHandler (s : SessionState) (r : RemoteState) :
    SessionState × RemoteState × List Effect :=
  ({ s with accion := some "confirmar", mostrar_botones := false }, r,
   [.uiSuccess "✅ Resultado confirmado. No se realizaron cambios en la base de datos."])

/-- `pd.concat([data, nuevo_dato], ignore_index=True)` for frames sharing
one column set — the only case the correction flow produces (both carry the
six canonical columns); the mismatched-column union with NaN padding is not
modelled. -/
def dfConcat (a b : DataFrame) : DataFrame := ⟨a.cols, a.rows ++ b.rows⟩

/-- The "💾 Guardar corrección" button handler: with no saved parameters it
errors and stops; otherwise it builds `nuevo_dato` from the corrected angle
and Y and the *saved* v, s, l, acero, re-fetches the dataset, and — only
when the fetch produced a nonempty frame — concatenates and uploads.  A
successful upload reports success and resets the session flags. -/
def guardarCorreccion (s : SessionState) (tokenPresent : Bool)
    (nuevo_angulo nuevo_y : ℚ) (r : RemoteState) :
    SessionState × RemoteState × List Effect :=
  match s.parametros with
  | none =>
    (s, r, [.uiError "❌ No se encontraron los parámetros. Por favor, realice una nueva predicción."])
  | some p =>
    let nuevo_dato : DataFrame :=
      ⟨requiredCols, [[nuevo_angulo, p.v, p.espesor, p.longitud, p.acero, nuevo_y]]⟩
    let fetched := obtener_datos_github r
    if dfEmpty fetched.1 then (s, r, fetched.2)
    else
      let data := dfConcat fetched.1 nuevo_dato
      let u := subir_datos_github tokenPresent data r
      if u.ok then
        ({ s with mostrar_botones := false, accion := none }, u.remote,
         fetched.2 ++ u.effects ++ [.uiSuccess "✅ Corrección registrada exitosamente"])
      else (s, u.remote, fetched.2 ++ u.effects)

/-- The "🔮 Calcular Valor Y" button flow of `main` (lines 552–606):
validation gates everything — an invalid parameter set errors out before
any network access; otherwise the dataset is fetched, its structure
validated, a fresh `ModeloPredictor` trained, the prediction computed,
and the prediction plus the query parameters are saved in the session. -/
def predictFlow (angulo longitud espesor v acero : ℚ) (s : SessionState)
    (r : RemoteState) (ff : Nat → Nat → List (List ℚ × ℚ) → List (List ℚ → ℚ))
    (entropy : Nat) : Option ℚ × SessionState × List Effect :=
  let val := validar_parametros angulo longitud espesor v
  if val.1 = false then
    (none, s, [.uiError val.2, .uiError "❌ Por favor corrija los errores antes de continuar"])
  else
    let fetched := obtener_datos_github r
    if dfEmpty fetched.1 then
      (none, s, fetched.2 ++ [.uiError "❌ No se pudieron cargar los datos de entrenamiento"])
    else
      let vd := validar_dataframe fetched.1
      if vd.1 = false then
        (none, s, fetched.2 ++ [.uiError ("❌ Error en los datos: " ++ vd.2)])
      else
        let tr := entrenarM (ModeloPredictor.mk none none none) ff fetched.1 entropy
        if tr.2 = false then
          (none, s, fetched.2 ++ [.uiError "❌ Error al entrenar el modelo"])
        else
          match predecir tr.1 angulo v espesor longitud acero with
          | none => (none, s, fetched.2 ++ [.uiError "❌ El modelo no ha sido entrenado"])
          | some py =>
            (some py,
             { s with pred_y := some py,
                      parametros := some (Params.mk angulo v espesor longitud acero),
                      mostrar_botones := true },
             fetched.2)

/-! ### Concrete fixtures used by the witnesses and counterexamples -/

/-- A one-row dataset with the six canonical columns. -/
def dfBase : DataFrame := ⟨requiredCols, [[90, 26, 18/10, 150, 10201, 92]]⟩

/-- `dfBase` after a concurrent writer appended a different row. -/
def dfIntervening : DataFrame :=
  ⟨requiredCols, [[90, 26, 18/10, 150, 10201, 92], [45, 12, 1, 80, 304, 50]]⟩

/-- The stale caller's snapshot `dfBase` with its own new row appended. -/
def dfStaleAppend : DataFrame :=
  ⟨requiredCols, [[90, 26, 18/10, 150, 10201, 92], [89, 26, 18/10, 150, 10201, 927/10]]⟩

/-- The query parameters of the end-to-end scenario. -/
def paramsBase : Params := ⟨90, 26, 18/10, 150, 10201⟩

/-- Session state right after a successful prediction of 92. -/
def sessionAfterPrediction : SessionState := ⟨true, none, some 92, some paramsBase⟩

/-- A reachable remote holding `dfBase` under version token 1. -/
def remoteBase : RemoteState := ⟨true, .present 1 dfBase, 5⟩

/-! ### C1 — conditional write against the caller's fetch-time token -/

/-- C1 counterexample: the caller fetched the dataset while the remote held
`dfBase` under token 1; a concurrent writer then moved the remote to token 2
with `dfIntervening`; the caller uploads its stale snapshot plus one new row.
The claim requires this write to fail with Conflict (the supplied fetch-time
token 1 no longer matches the stored token 2), but `subir_datos_github`
takes no token from the caller, fetches the current token itself, succeeds,
and replaces the intervening write. -/
theorem C1_counterexample :
    (obtener_datos_github ⟨true, RemoteObject.present 1 dfBase, 5⟩).1 = dfBase ∧
    dfStaleAppend = dfConcat dfBase ⟨requiredCols, [[89, 26, 18/10, 150, 10201, 927/10]]⟩ ∧
    (subir_datos_github true dfStaleAppend ⟨true, RemoteObject.present 2 dfIntervening, 6⟩).ok
      = true ∧
    (subir_datos_github true dfStaleAppend ⟨true, RemoteObject.present 2 dfIntervening, 6⟩).remote.obj
      = RemoteObject.present 6 dfStaleAppend :=
  ⟨rfl, rfl, rfl, rfl⟩

/-- C1 amended: the upload is not conditioned on any token the caller
fetched under — `subir_datos_github` takes no version token at all.  It
fetches the current token itself immediately before the write (one GET,
then one PUT, no retry loop), so whenever the DataFrame is nonempty, the
credential is configured and the remote reachable, the write succeeds
regardless of any earlier remote update, replacing the remote object under
a fresh token; a stale caller view is silently overwritten, never surfaced
as a Conflict. -/
theorem C1_amended_fresh_token_write (df : DataFrame) (r : RemoteState)
    (hdf : dfEmpty df = false) (hr : r.reachable = true) :
    (subir_datos_github true df r).ok = true ∧
    (subir_datos_github true df r).remote = ⟨true, .present r.fresh df, r.fresh + 1⟩ ∧
    (subir_datos_github true df r).effects =
      [.httpGet, .httpPut, .uiSuccess "✅ Datos actualizados correctamente en GitHub"] := by
  simp [subir_datos_github, hdf, hr]

/-- Closed instance of the amended C1 theorem. -/
theorem C1_amended_fresh_token_write_witness :
    (subir_datos_github true dfBase ⟨true, RemoteObject.absent, 0⟩).ok = true ∧
    (subir_datos_github true dfBase ⟨true, RemoteObject.absent, 0⟩).remote
      = ⟨true, RemoteObject.present 0 dfBase, 1⟩ := by
  have h := C1_amended_fresh_token_write dfBase ⟨true, RemoteObject.absent, 0⟩ rfl rfl
  exact ⟨h.1, h.2.1⟩

/-! ### C2 — confirming a prediction -/

/-- C2 counterexample: with a prediction of 92 and saved parameters in the
session and a one-row remote dataset under token 1, pressing the confirm
button leaves the remote state — rows and version token — exactly as it
was and issues no network request at all: no Observation with `y = 92` is
appended and the dataset does not grow to two rows under a new token. -/
theorem C2_counterexample :
    (confirmarHandler sessionAfterPrediction remoteBase).2.1 = remoteBase ∧
    remoteRows (confirmarHandler sessionAfterPrediction remoteBase).2.1 = 1 ∧
    Effect.httpPut ∉ (confirmarHandler sessionAfterPrediction remoteBase).2.2 ∧
    Effect.httpGet ∉ (confirmarHandler sessionAfterPrediction remoteBase).2.2 :=
  ⟨rfl, rfl, by decide, by decide⟩

/-- C2 amended: confirming the model's own prediction appends nothing.  The
handler only records the confirmed action, hides the decision buttons and
reports that no database change was made; the remote dataset keeps its rows
and version token and no network request is issued.  Only the correction
path appends a row. -/
theorem C2_amended_confirm_appends_nothing (s : SessionState) (r : RemoteState) :
    confirmarHandler s r =
      ({ s with accion := some "confirmar", mostrar_botones := false }, r,
       [.uiSuccess "✅ Resultado confirmado. No se realizaron cambios en la base de datos."]) ∧
    (confirmarHandler s r).2.1 = r ∧
    remoteRows (confirmarHandler s r).2.1 = remoteRows r ∧
    Effect.httpPut ∉ (confirmarHandler s r).2.2 ∧
    Effect.httpGet ∉ (confirmarHandler s r).2.2 :=
  ⟨rfl, rfl, rfl, by simp [confirmarHandler], by simp [confirmarHandler]⟩

/-! ### C4 — fetch outcomes -/

/-- C4 counterexample: when no backing object exists the fetch reports a
UI *error* (not a distinct non-error EmptyDataset state) and returns the
empty DataFrame — the very same value returned when the remote is
unreachable, so the caller cannot tell the two situations apart from the
result. -/
theorem C4_counterexample :
    (obtener_datos_github ⟨true, RemoteObject.absent, 0⟩).1
      = (obtener_datos_github ⟨false, RemoteObject.present 1 dfBase, 5⟩).1 ∧
    (obtener_datos_github ⟨true, RemoteObject.absent, 0⟩).1 = emptyDF ∧
    Effect.uiError "❌ Error al procesar el archivo"
      ∈ (obtener_datos_github ⟨true, RemoteObject.absent, 0⟩).2 :=
  ⟨rfl, rfl, by decide⟩

/-- C4 amended: every failure mode of the fetch collapses to the same
returned value, the empty DataFrame: an unreachable remote yields it with
a UI error, a missing backing object also yields it with a UI error, and a
present but empty object yields it with a UI warning.  Callers can not
tell a zero-row dataset apart from an unreachable one by the returned
DataFrame. -/
theorem C4_amended_fetch_collapses (r r2 r3 : RemoteState) (sha : Nat) (df : DataFrame)
    (h : r.reachable = false) (h2 : r2.reachable = true) (h3 : r2.obj = RemoteObject.absent)
    (h4 : r3.reachable = true) (h5 : r3.obj = RemoteObject.present sha df)
    (h6 : dfEmpty df = true) :
    (obtener_datos_github r).1 = emptyDF ∧
    (obtener_datos_github r2).1 = emptyDF ∧
    (obtener_datos_github r3).1 = emptyDF ∧
    (obtener_datos_github r).1 = (obtener_datos_github r2).1 ∧
    (∃ m, Effect.uiError m ∈ (obtener_datos_github r).2) ∧
    (∃ m, Effect.uiError m ∈ (obtener_datos_github r2).2) ∧
    (∃ m, Effect.uiWarning m ∈ (obtener_datos_github r3).2) := by
  refine ⟨?_, ?_, ?_, ?_, ?_, ?_, ?_⟩ <;>
    simp [obtener_datos_github, h, h2, h3, h4, h5, h6]

/-- Closed instance of the amended C4 theorem. -/
theorem C4_amended_fetch_collapses_witness :
    (obtener_datos_github ⟨false, RemoteObject.present 1 dfBase, 5⟩).1 = emptyDF ∧
    (obtener_datos_github ⟨true, RemoteObject.absent, 0⟩).1 = emptyDF ∧
    (obtener_datos_github ⟨true, RemoteObject.present 2 emptyDF, 3⟩).1 = emptyDF := by
  have h := C4_amended_fetch_collapses ⟨false, RemoteObject.present 1 dfBase, 5⟩
    ⟨true, RemoteObject.absent, 0⟩ ⟨true, RemoteObject.present 2 emptyDF, 3⟩ 2 emptyDF
    rfl rfl rfl rfl rfl rfl
  exact ⟨h.1, h.2.1, h.2.2.1⟩

/-! ### C10 — upload guards -/

/-- C10: the upload refuses to proceed on an empty DataFrame or a missing
credential: it returns False, reports a user-visible error, performs no
network request at all (in particular no write), and leaves the remote
state untouched. -/
theorem C10_upload_guards (tokenPresent : Bool) (df : DataFrame) (r : RemoteState)
    (h : dfEmpty df = true ∨ tokenPresent = false) :
    (subir_datos_github tokenPresent df r).ok = false ∧
    (subir_datos_github tokenPresent df r).remote = r ∧
    Effect.httpGet ∉ (subir_datos_github tokenPresent df r).effects ∧
    Effect.httpPut ∉ (subir_datos_github tokenPresent df r).effects ∧
    ∃ msg, Effect.uiError msg ∈ (subir_datos_github tokenPresent df r).effects := by
  rcases h with h | h
  · refine ⟨?_, ?_, ?_, ?_, ?_⟩ <;>
      simp [subir_datos_github, h]
  · subst h
    by_cases hdf : dfEmpty df <;>
      refine ⟨?_, ?_, ?_, ?_, ?_⟩ <;>
        simp [subir_datos_github, hdf]

/-- Closed instance of the C10 theorem. -/
theorem C10_upload_guards_witness :
    (subir_datos_github true emptyDF remoteBase).ok = false ∧
    (subir_datos_github true emptyDF remoteBase).remote = remoteBase ∧
    Effect.httpPut ∉ (subir_datos_github true emptyDF remoteBase).effects ∧
    (subir_datos_github false dfBase remoteBase).ok = false ∧
    Effect.httpPut ∉ (subir_datos_github false dfBase remoteBase).effects := by
  have h1 := C10_upload_guards true emptyDF remoteBase (Or.inl rfl)
  have h2 := C10_upload_guards false dfBase remoteBase (Or.inr rfl)
  exact ⟨h1.1, h1.2.1, h1.2.2.2.1, h2.1, h2.2.2.2.1⟩

/-! ### C3 — the corrected observation -/

/-- C3: the row the correction handler appends is built from exactly the
two human-supplied corrected values (`nuevo_angulo`, `nuevo_y`) and, for
every other field, the query parameters saved at prediction time: given a
reachable remote holding a nonempty dataset, the upload replaces the remote
object with the fetched rows plus the single row
`[nuevo_angulo, v, s, l, acero, nuevo_y]`, growing the dataset by one. -/
theorem C3_correction_row_fields (s : SessionState) (p : Params)
    (hp : s.parametros = some p) (na ny : ℚ) (r : RemoteState) (sha : Nat)
    (df : DataFrame) (hobj : r.obj = RemoteObject.present sha df)
    (hre : r.reachable = true) (hdf : dfEmpty df = false) :
    (guardarCorreccion s true na ny r).2.1.obj
      = RemoteObject.present r.fresh
          ⟨df.cols, df.rows ++ [[na, p.v, p.espesor, p.longitud, p.acero, ny]]⟩ ∧
    remoteRows (guardarCorreccion s true na ny r).2.1 = df.rows.length + 1 := by
  have hrows : df.rows.isEmpty = false ∧ df.cols.isEmpty = false := by
    simpa [dfEmpty, Bool.or_eq_false_iff] using hdf
  have hd2 : dfEmpty ⟨df.cols, df.rows ++ [[na, p.v, p.espesor, p.longitud, p.acero, ny]]⟩
      = false := by
    simp [dfEmpty, hrows.2]
  refine ⟨?_, ?_⟩ <;>
    simp [guardarCorreccion, hp, obtener_datos_github, hre, hobj, hdf, dfConcat,
      subir_datos_github, hd2, remoteRows]

/-- Closed instance of the C3 theorem: correcting with angle 89 and
y = 92.70 appends `[89, 26, 1.8, 150, 10201, 92.7]` to the one-row base. -/
theorem C3_correction_row_fields_witness :
    (guardarCorreccion sessionAfterPrediction true 89 (927/10) remoteBase).2.1.obj
      = RemoteObject.present 5
          ⟨requiredCols, [[90, 26, 18/10, 150, 10201, 92],
                          [89, 26, 18/10, 150, 10201, 927/10]]⟩ ∧
    remoteRows (guardarCorreccion sessionAfterPrediction true 89 (927/10) remoteBase).2.1 = 2 := by
  have h := C3_correction_row_fields sessionAfterPrediction paramsBase rfl 89 (927/10)
    remoteBase 1 dfBase rfl rfl rfl
  exact ⟨h.1, h.2⟩

/-! ### C5 — input validation gates network access -/

/-- C5 counterexample: with die opening V = 6 the minimum length is 5 mm;
a requested length of exactly 5 mm is *not* strictly greater than the
minimum, so the claim demands a ValidationError, yet validation passes and
the prediction flow proceeds to the network fetch. -/
theorem C5_counterexample :
    validar_parametros 90 5 2 6 = (true, "") ∧
    lookupHV 6 = some 5 ∧
    Effect.httpGet ∈ (predictFlow 90 5 2 6 10201 sessionAfterPrediction
      ⟨true, RemoteObject.absent, 0⟩ (fun _ _ _ => []) 0).2.2 :=
  ⟨by decide, by decide, by decide⟩

/-- C5 amended: if the angle is outside [1, 180] or the length is strictly
*less than* the minimum length for the selected die opening (a length equal
to the minimum passes), validation fails and the prediction flow stops with
the validation error before any network access: no GET or PUT is issued, no
prediction is produced and the session is unchanged. -/
theorem C5_amended_validation_gate (a : ℤ) (longitud espesor v hm acero : ℚ)
    (s : SessionState) (r : RemoteState)
    (ff : Nat → Nat → List (List ℚ × ℚ) → List (List ℚ → ℚ)) (entropy : Nat)
    (h : ¬(1 ≤ a ∧ a ≤ 180) ∨ (lookupHV v = some hm ∧ longitud < hm)) :
    (validar_parametros (a : ℚ) longitud espesor v).1 = false ∧
    (predictFlow (a : ℚ) longitud espesor v acero s r ff entropy).1 = none ∧
    (predictFlow (a : ℚ) longitud espesor v acero s r ff entropy).2.1 = s ∧
    Effect.httpGet ∉ (predictFlow (a : ℚ) longitud espesor v acero s r ff entropy).2.2 ∧
    Effect.httpPut ∉ (predictFlow (a : ℚ) longitud espesor v acero s r ff entropy).2.2 := by
  have hval : (validar_parametros (a : ℚ) longitud espesor v).1 = false := by
    rcases h with h | ⟨hl, hlt⟩
    · have hcast : (a : ℚ) ≤ 0 ∨ (a : ℚ) > 180 := by
        rcases (by omega : a ≤ 0 ∨ a > 180) with h1 | h1
        · exact Or.inl (by exact_mod_cast h1)
        · exact Or.inr (by exact_mod_cast h1)
      unfold validar_parametros
      rw [if_pos hcast]
    · unfold validar_parametros
      split_ifs with h1 h2 h3
      · rfl
      · rfl
      · rfl
      · rw [hl]
        simp [hlt]
  refine ⟨hval, ?_, ?_, ?_, ?_⟩ <;>
    simp [predictFlow, hval]

/-- Closed instance of the amended C5 theorem: angle 0 is rejected with
zero network calls. -/
theorem C5_amended_validation_gate_witness :
    (validar_parametros ((0 : ℤ) : ℚ) 100 1 6).1 = false ∧
    Effect.httpGet ∉ (predictFlow ((0 : ℤ) : ℚ) 100 1 6 10201 sessionAfterPrediction
      remoteBase (fun _ _ _ => []) 0).2.2 := by
  have h := C5_amended_validation_gate 0 100 1 6 5 10201 sessionAfterPrediction
    remoteBase (fun _ _ _ => []) 0 (Or.inl (by decide))
  exact ⟨h.1, h.2.2.2.1⟩

/-! ### C6 — missing dataset columns -/

/-- A column label absent from the column list has no index. -/
lemma colIdx_eq_none_of_not_mem (cols : List String) (c : String) (h : c ∉ cols) :
    colIdx cols c = none := by
  induction cols with
  | nil => rfl
  | cons x xs ih =>
    rw [List.mem_cons, not_or] at h
    have hne : ¬(x = c) := fun hxc => h.1 hxc.symm
    simp [colIdx, hne, ih h.2]

/-- Binding `none` on the left yields `none`. -/
lemma optBind_none_left {α β : Type} (f : α → Option β) :
    Option.bind none f = none := rfl

/-- Binding a constant `none` continuation yields `none`. -/
lemma optBind_none_right {α β : Type} (x : Option α) :
    Option.bind x (fun _ => (none : Option β)) = none := by
  cases x <;> rfl

/-- Mapping over `none` yields `none`. -/
lemma optMap_none_left {α β : Type} (f : α → β) :
    Option.map f (none : Option α) = none := rfl

/-- If any required column is missing, the six-way index lookup fails. -/
lemma featureIdxs_eq_none (df : DataFrame) (c : String) (hc : c ∈ requiredCols)
    (hmiss : c ∉ df.cols) : featureIdxs df = none := by
  have hnone := colIdx_eq_none_of_not_mem df.cols c hmiss
  have hcases : c = "angulo" ∨ c = "v" ∨ c = "s" ∨ c = "l" ∨ c = "acero" ∨ c = "y" := by
    simpa [requiredCols] using hc
  rcases hcases with h | h | h | h | h | h <;> subst h <;>
    simp [featureIdxs, hnone, optBind_none_left, optBind_none_right, optMap_none_left]

/-- Training fails as soon as a required column is missing. -/
lemma entrenarCore_eq_none (ff : Nat → Nat → List (List ℚ × ℚ) → List (List ℚ → ℚ))
    (df : DataFrame) (e : Nat) (c : String) (hc : c ∈ requiredCols)
    (hmiss : c ∉ df.cols) : entrenarCore ff df e = none := by
  unfold entrenarCore
  rw [featureIdxs_eq_none df c hc hmiss]

/-- C6 counterexample: a five-column, zero-row DataFrame is missing the
required column `y`, yet validation reports the generic emptiness message —
which does not name `y` — because the emptiness check runs before the
missing-column check. -/
theorem C6_counterexample :
    ("y" ∈ requiredCols ∧
      "y" ∉ (⟨["angulo", "v", "s", "l", "acero"], []⟩ : DataFrame).cols) ∧
    validar_dataframe ⟨["angulo", "v", "s", "l", "acero"], []⟩
      = (false, "El DataFrame está vacío") :=
  ⟨by decide, by decide⟩

/-- C6 amended: for any *nonempty* dataset missing one or more of the six
required columns, validation fails with the message naming exactly the
missing columns, and training fails returning the model object unchanged —
`pipeline`, `mae` and `r2` are not mutated.  (An empty dataset also fails
without mutation, but with the emptiness message.) -/
theorem C6_amended_missing_columns (df : DataFrame) (c : String)
    (hne : dfEmpty df = false) (hc : c ∈ requiredCols) (hmiss : c ∉ df.cols) :
    (validar_dataframe df).1 = false ∧
    (validar_dataframe df).2
      = "Faltan columnas: " ++ String.intercalate ", " (missingCols df) ∧
    (∀ c2, c2 ∈ missingCols df ↔ c2 ∈ requiredCols ∧ c2 ∉ df.cols) ∧
    ∀ (m : ModeloPredictor) ff e, entrenarM m ff df e = (m, false) := by
  have hprop : ¬ ∀ x ∈ requiredCols, x ∈ df.cols :=
    fun hforall => hmiss (hforall c hc)
  refine ⟨?_, ?_, ?_, ?_⟩
  · simp [validar_dataframe, hne, hprop]
  · simp [validar_dataframe, hne, hprop]
  · intro c2
    simp [missingCols, List.mem_filter]
  · intro m ff e
    unfold entrenarM
    rw [entrenarCore_eq_none ff df e c hc hmiss]

/-- Closed instance of the amended C6 theorem: a nonempty frame missing
only `y` gets the message naming exactly `y`, and training returns the
untouched model with `False`. -/
theorem C6_amended_missing_columns_witness :
    (validar_dataframe ⟨["angulo", "v", "s", "l", "acero"], [[1, 2, 3, 4, 5]]⟩).2
      = "Faltan columnas: y" ∧
    entrenarM ⟨none, none, none⟩ (fun _ _ _ => [])
      ⟨["angulo", "v", "s", "l", "acero"], [[1, 2, 3, 4, 5]]⟩ 0
      = (⟨none, none, none⟩, false) := by
  have h := C6_amended_missing_columns
    ⟨["angulo", "v", "s", "l", "acero"], [[1, 2, 3, 4, 5]]⟩ "y" rfl (by decide) (by decide)
  refine ⟨?_, h.2.2.2 ⟨none, none, none⟩ (fun _ _ _ => []) 0⟩
  rw [h.2.1]
  decide

/-! ### C7 — unknown material codes at prediction time -/

/-- A value outside the fitted vocabulary one-hot encodes to all zeros. -/
lemma oneHotRow_of_not_mem (cats : List ℚ) (x : ℚ) (h : x ∉ cats) :
    oneHotRow cats x = List.replicate cats.length 0 := by
  induction cats with
  | nil => rfl
  | cons c cs ih =>
    rw [List.mem_cons, not_or] at h
    have hne : ¬(c = x) := fun hcx => h.1 hcx.symm
    simp only [oneHotRow, List.map_cons, List.length_cons, List.replicate_succ] at ih ⊢
    rw [if_neg hne, ih h.2]

/-- C7: a material code never seen during training does not make encoding
fail — it is encoded as the all-zero indicator block (the numeric columns
pass through unchanged) and the prediction is still returned. -/
theorem C7_unknown_material_all_zeros (fm : FittedModel) (a v espesor longitud ac : ℚ)
    (h : ac ∉ fm.cats) :
    encodeRow fm.cats (Query.mk a v espesor longitud ac)
      = List.replicate fm.cats.length 0 ++ [a, v, espesor, longitud] ∧
    (predecir ⟨some fm, none, none⟩ a v espesor longitud ac).isSome = true := by
  constructor
  · simp [encodeRow, oneHotRow_of_not_mem fm.cats ac h]
  · rfl

/-- Closed instance of the C7 theorem: code 3 is unknown to the vocabulary
[1, 2] and still yields a prediction. -/
theorem C7_unknown_material_all_zeros_witness :
    ((3 : ℚ) ∉ ([1, 2] : List ℚ)) ∧
    encodeRow [1, 2] (Query.mk 90 26 (18/10) 150 3) = [0, 0, 90, 26, 18/10, 150] ∧
    (predecir ⟨some ⟨[1, 2], [fun _ => 5]⟩, none, none⟩ 90 26 (18/10) 150 3).isSome
      = true := by
  have h := C7_unknown_material_all_zeros ⟨[1, 2], [fun _ => 5]⟩ 90 26 (18/10) 150 3
    (by decide)
  exact ⟨by decide, by simpa using h.1, h.2⟩

/-! ### C8 — deterministic split selection -/

/-- Removing the element at an index shortens the list by exactly one. -/
lemma extractAt_length {α : Type} (i : Nat) (l : List α) (x : α) (rest : List α)
    (h : extractAt i l = some (x, rest)) : rest.length + 1 = l.length := by
  induction l generalizing i x rest with
  | nil => exact absurd h (by simp [extractAt])
  | cons a as ih =>
    cases i with
    | zero =>
      simp only [extractAt, Option.some.injEq, Prod.mk.injEq] at h
      rw [← h.2]
      simp
    | succ j =>
      simp only [extractAt] at h
      cases he : extractAt j as with
      | none =>
        rw [he] at h
        exact absurd h (by simp)
      | some p =>
        obtain ⟨y, ys⟩ := p
        rw [he] at h
        simp only [Option.some.injEq, Prod.mk.injEq] at h
        have hlen := ih j y ys he
        rw [← h.2]
        simp only [List.length_cons]
        omega

/-- The shuffle is a permutation in particular of the same length. -/
lemma shuffleAux_length {α : Type} (fuel : Nat) (s : Nat) (l : List α) :
    (shuffleAux s fuel l).length = l.length := by
  induction fuel generalizing s l with
  | zero => rfl
  | succ n ih =>
    simp only [shuffleAux]
    split
    · rfl
    · rename_i x rest he
      simp only [List.length_cons]
      rw [ih]
      exact extractAt_length _ _ _ _ he

/-- The held-out fraction never exceeds the sample count. -/
lemma nTest_le (n : Nat) : nTest n ≤ n := by
  unfold nTest MODEL_TEST_SIZE
  rw [Nat.ceil_le]
  nlinarith [Nat.cast_nonneg (α := ℚ) n]

/-- Partition sizes of the modelled `train_test_split`. -/
lemma train_test_split_lengths {α : Type} (rs : Option Nat) (e : Nat) (l : List α) :
    (train_test_split rs e l).2.length = nTest l.length ∧
    (train_test_split rs e l).1.length = l.length - nTest l.length := by
  unfold train_test_split
  constructor
  · simp only [List.length_take, shuffleSeeded, shuffleAux_length]
    exact Nat.min_eq_left (nTest_le l.length)
  · simp only [List.length_drop, shuffleSeeded, shuffleAux_length]

/-- A fixed `random_state` makes the split independent of ambient entropy. -/
lemma train_test_split_fixed_seed {α : Type} (st e : Nat) (l : List α) :
    train_test_split (some st) e l = train_test_split (some st) 0 l := by
  simp [train_test_split]

/-- C8: training always splits under the fixed seed 42 and the fixed 1/5
held-out fraction, so two runs over the same dataset — whatever the ambient
entropy of each run — produce identical training and held-out partitions
(hence identical rows behind MAE and R²), and the held-out partition always
has exactly `ceil(n * 0.2)` of the `n` rows. -/
theorem C8_split_deterministic (m : ModeloPredictor)
    (ff : Nat → Nat → List (List ℚ × ℚ) → List (List ℚ → ℚ)) (df : DataFrame)
    (e1 e2 : Nat) (l : List (Query × ℚ)) :
    entrenarM m ff df e1 = entrenarM m ff df e2 ∧
    train_test_split (some MODEL_RANDOM_STATE) e1 l
      = train_test_split (some MODEL_RANDOM_STATE) e2 l ∧
    (train_test_split (some MODEL_RANDOM_STATE) e1 l).2.length = nTest l.length ∧
    (train_test_split (some MODEL_RANDOM_STATE) e1 l).1.length
      = l.length - nTest l.length := by
  refine ⟨?_, ?_, (train_test_split_lengths _ _ _).1, (train_test_split_lengths _ _ _).2⟩
  · unfold entrenarM entrenarCore
    simp only [train_test_split_fixed_seed]
  · rw [train_test_split_fixed_seed MODEL_RANDOM_STATE e1,
      train_test_split_fixed_seed MODEL_RANDOM_STATE e2]

/-! ### C9 — the prediction contract -/

/-- C9: before a successful training the predictor returns `None` (the
ModelNotTrainedError path); after training it encodes the query through the
pipeline's already-fitted vocabulary — stored in the fitted model, not
re-fitted on the query — and returns the ensemble's mean prediction rounded
to two decimal places. -/
theorem C9_predecir_contract (m : ModeloPredictor) (a v espesor longitud acero : ℚ) :
    (m.pipeline = none → predecir m a v espesor longitud acero = none) ∧
    ∀ fm, m.pipeline = some fm →
      predecir m a v espesor longitud acero
        = some (round2 (forestPredict fm.trees
            (encodeRow fm.cats (Query.mk a v espesor longitud acero)))) := by
  constructor
  · intro h; simp [predecir, h]
  · intro fm h; simp [predecir, h]

/-- Closed instance of the C9 theorem: the untrained predictor yields
`None`; a fitted one-tree model constantly predicting 7 yields 7.00. -/
theorem C9_predecir_contract_witness :
    predecir ⟨none, none, none⟩ 90 26 (18/10) 150 10201 = none ∧
    predecir ⟨some ⟨[5], [fun _ => 7]⟩, none, none⟩ 90 26 (18/10) 150 10201
      = some 7 := by
  constructor
  · exact (C9_predecir_contract ⟨none, none, none⟩ 90 26 (18/10) 150 10201).1 rfl
  · have h := (C9_predecir_contract ⟨some ⟨[5], [fun _ => 7]⟩, none, none⟩
      90 26 (18/10) 150 10201).2 ⟨[5], [fun _ => 7]⟩ rfl
    rw [h]
    norm_num [forestPredict, round2, roundHalfEven, encodeRow, oneHotRow]

end Plegadora
